import Mathlib

/-!
Verification of the HR/accounting admin panel (files hra.py, hra2.py).

The development shallowly embeds the data-flow of the two Streamlit
applications:

* the persistence gateway `execute_query` (present identically in both
  files) acting on an in-memory table, with the external store's
  failure modes supplied as an explicit parameter;
* the six workflow-screen create handlers and list filters of hra.py;
* the approval-flow authentication functions of hra2.py
  (`register_user`, `verify_email_code`, `login_user`,
  `generate_verification_code`);
* the bulk spreadsheet importer `upload_excel_data`.

Modelling conventions: Python numbers (ints and floats) are embedded as
rationals, so the arithmetic the code performs is exact in the model;
strings are Lean `String`s; a `dict` row is an association list; the
SHA-256 digest `hash_password` is an abstract `String → String`
parameter (its value never influences control flow); calls to the
hosted store may fail, which is modelled by an `Option String`
parameter holding the raised exception's message, `none` meaning the
call succeeds.
-/

namespace HRA

/-- A cell value of a row: Python str, int/float (as an exact rational),
or bool. -/
inductive Val where
  | s (v : String)
  | n (v : ℚ)
  | b (v : Bool)
deriving DecidableEq, Repr

/-- A database row: the `dict` passed to / returned by supabase. -/
abbrev Row := List (String × Val)

/-- One table of the backing store. -/
abbrev Table := List Row

/-- Look a field up in a row (first binding wins, as in a Python dict
built once). -/
def rowLookup (r : Row) (k : String) : Option Val :=
  (r.find? (fun kv => kv.1 == k)).map (·.2)

/-- Numeric value of a field, 0 when absent or non-numeric. -/
def valN (r : Row) (k : String) : ℚ :=
  match rowLookup r k with
  | some (.n q) => q
  | _ => 0

/-- A `(field, value)` equality-filter list: the chained `.eq` calls of
`execute_query`.  The empty list models both `filters=None` and
`filters={}` (Python `not filters` is true for both). -/
abbrev Filters := List (String × Val)

/-- A row satisfies every equality filter (supabase chains `.eq`
conjunctively). -/
def matchesFilters (filters : Filters) (r : Row) : Bool :=
  filters.all (fun kv => rowLookup r kv.1 == some kv.2)

/-- Overwrite the fields of `r` named in `data` with `data`'s values
(supabase `update`). -/
def mergeRow (data r : Row) : Row :=
  data ++ r.filter (fun kv => !(data.any (fun d => d.1 == kv.1)))

/-- The four operations of `execute_query`. -/
inductive Op where
  | select | insert | update | delete
deriving DecidableEq, Repr

/-- Result of one `execute_query` call: the table afterwards, the value
returned to the caller (`none` models the Python `None` returned from
the `except` branch; `some rows` models either the select DataFrame's
rows or `response.data`), and the `st.error` message displayed, if
any. -/
structure QResult where
  table : Table
  rows : Option (List Row)
  err : Option String
deriving DecidableEq, Repr

/-- `execute_query(table_name, operation, data, filters)` from
hra.py lines 232-267 and hra2.py lines 494-529 (the two bodies are
identical), acting on the named table's rows `tbl`.  `storeErr = some m`
models the supabase call raising an exception with message `m`; the
generic `except` branch shows `st.error` with the message prefixed by
the Korean text for "database error" and returns `None`.  Update and
delete raise `ValueError` before any store call when no filter is
given. -/
def execute_query (storeErr : Option String) (tbl : Table) (op : Op)
    (data : Row) (filters : Filters) : QResult :=
  match op with
  | .select =>
    match storeErr with
    | some e => ⟨tbl, none, some ("데이터베이스 오류: " ++ e)⟩
    | none => ⟨tbl, some (tbl.filter (matchesFilters filters)), none⟩
  | .insert =>
    match storeErr with
    | some e => ⟨tbl, none, some ("데이터베이스 오류: " ++ e)⟩
    | none => ⟨tbl ++ [data], some [data], none⟩
  | .update =>
    if filters.isEmpty then
      ⟨tbl, none, some "데이터베이스 오류: Update operation requires filters"⟩
    else
      match storeErr with
      | some e => ⟨tbl, none, some ("데이터베이스 오류: " ++ e)⟩
      | none =>
        ⟨tbl.map (fun r => if matchesFilters filters r then mergeRow data r else r),
         some ((tbl.filter (matchesFilters filters)).map (mergeRow data)), none⟩
  | .delete =>
    if filters.isEmpty then
      ⟨tbl, none, some "데이터베이스 오류: Delete operation requires filters"⟩
    else
      match storeErr with
      | some e => ⟨tbl, none, some ("데이터베이스 오류: " ++ e)⟩
      | none =>
        ⟨tbl.filter (fun r => !matchesFilters filters r),
         some (tbl.filter (matchesFilters filters)), none⟩

/-! ### String containment

Helper for Python's `in` on strings and for pandas `Series.str.contains`
used with a literal (metacharacter-free) pattern: case-sensitive
substring containment. -/

/-- `startsWithL n h` : the char list `n` starts the char list `h`. -/
def startsWithL : List Char → List Char → Bool
  | [], _ => true
  | _ :: _, [] => false
  | c :: cs, d :: ds => c == d && startsWithL cs ds

/-- `hasSubL n h` : `n` occurs contiguously inside `h`. -/
def hasSubL (needle : List Char) : List Char → Bool
  | [] => needle.isEmpty
  | d :: ds => startsWithL needle (d :: ds) || hasSubL needle ds

/-- Case-sensitive substring containment on strings. -/
def hasSub (needle hay : String) : Bool :=
  hasSubL needle.toList hay.toList

/-! ### Workflow screens: create handlers (hra.py)

Each form handler validates its required fields against the empty
string (Python `not s`), shows the screen's error message when one is
blank, and otherwise issues exactly one `execute_query(…, "insert", …)`
with the form's data dict, derived fields already computed.  The
`inserts` field records the data argument of every insert call the
handler issued. -/

/-- Outcome of one form submission: the table afterwards, the data
arguments of the insert calls issued, and the validation error shown
by `st.error`, if any. -/
structure SubmitOut where
  table : Table
  inserts : List Row
  validationError : Option String
deriving DecidableEq, Repr

/-- The employee registration form (hra.py lines 413-446). -/
structure EmployeeForm where
  employee_code : String
  name : String
  department : String
  position : String
  hire_date : String
  salary : ℚ
  phone : String
  email : String
  status : String
deriving DecidableEq, Repr

/-- The data dict built by the employee form (hra.py lines 436-446). -/
def employee_row (f : EmployeeForm) : Row :=
  [("employee_code", .s f.employee_code), ("name", .s f.name),
   ("department", .s f.department), ("position", .s f.position),
   ("hire_date", .s f.hire_date), ("salary", .n f.salary),
   ("phone", .s f.phone), ("email", .s f.email), ("status", .s f.status)]

/-- Employee form submission (hra.py lines 432-451). -/
def employee_submit (storeErr : Option String) (tbl : Table) (f : EmployeeForm) : SubmitOut :=
  if f.employee_code == "" || f.name == "" then
    ⟨tbl, [], some "사번과 이름은 필수 입력 항목입니다."⟩
  else
    ⟨(execute_query storeErr tbl .insert (employee_row f) []).table,
     [employee_row f], none⟩

/-- The payroll entry form (hra.py lines 544-574). -/
structure PayrollForm where
  employee_code : String
  payment_date : String
  base_salary : ℚ
  bonus : ℚ
  deduction : ℚ
  remarks : String
deriving DecidableEq, Repr

/-- The data dict built by the payroll form, with
`net_salary = base_salary + bonus - deduction` computed at entry
(hra.py lines 555, 566-574). -/
def payroll_row (f : PayrollForm) : Row :=
  [("employee_code", .s f.employee_code), ("payment_date", .s f.payment_date),
   ("base_salary", .n f.base_salary), ("bonus", .n f.bonus),
   ("deduction", .n f.deduction),
   ("net_salary", .n (f.base_salary + f.bonus - f.deduction)),
   ("remarks", .s f.remarks)]

/-- Payroll form submission (hra.py lines 562-579). -/
def payroll_submit (storeErr : Option String) (tbl : Table) (f : PayrollForm) : SubmitOut :=
  if f.employee_code == "" then
    ⟨tbl, [], some "사번은 필수 입력 항목입니다."⟩
  else
    ⟨(execute_query storeErr tbl .insert (payroll_row f) []).table,
     [payroll_row f], none⟩

/-- The client registration form (hra.py lines 618-649). -/
structure ClientForm where
  client_code : String
  client_name : String
  business_type : String
  country : String
  contact_person : String
  phone : String
  email : String
  address : String
deriving DecidableEq, Repr

/-- The data dict built by the client form (hra.py lines 640-649). -/
def client_row (f : ClientForm) : Row :=
  [("client_code", .s f.client_code), ("client_name", .s f.client_name),
   ("business_type", .s f.business_type), ("country", .s f.country),
   ("contact_person", .s f.contact_person), ("phone", .s f.phone),
   ("email", .s f.email), ("address", .s f.address)]

/-- Client form submission (hra.py lines 636-654). -/
def client_submit (storeErr : Option String) (tbl : Table) (f : ClientForm) : SubmitOut :=
  if f.client_code == "" || f.client_name == "" then
    ⟨tbl, [], some "거래처코드와 거래처명은 필수 입력 항목입니다."⟩
  else
    ⟨(execute_query storeErr tbl .insert (client_row f) []).table,
     [client_row f], none⟩

/-- The sales entry form (hra.py lines 753-789). -/
structure SalesForm where
  sales_no : String
  sales_date : String
  client_code : String
  product_name : String
  quantity : ℚ
  unit_price : ℚ
  currency : String
  payment_status : String
  remarks : String
deriving DecidableEq, Repr

/-- The data dict built by the sales form, with
`amount = quantity * unit_price` computed at entry
(hra.py lines 765, 778-789). -/
def sales_row (f : SalesForm) : Row :=
  [("sales_no", .s f.sales_no), ("sales_date", .s f.sales_date),
   ("client_code", .s f.client_code), ("product_name", .s f.product_name),
   ("quantity", .n f.quantity), ("unit_price", .n f.unit_price),
   ("amount", .n (f.quantity * f.unit_price)), ("currency", .s f.currency),
   ("payment_status", .s f.payment_status), ("remarks", .s f.remarks)]

/-- Sales form submission (hra.py lines 774-794). -/
def sales_submit (storeErr : Option String) (tbl : Table) (f : SalesForm) : SubmitOut :=
  if f.sales_no == "" || f.client_code == "" || f.product_name == "" then
    ⟨tbl, [], some "매출번호, 거래처코드, 품목명은 필수 입력 항목입니다."⟩
  else
    ⟨(execute_query storeErr tbl .insert (sales_row f) []).table,
     [sales_row f], none⟩

/-- The purchase entry form (hra.py lines 834-870). -/
structure PurchaseForm where
  purchase_no : String
  purchase_date : String
  supplier_code : String
  product_name : String
  quantity : ℚ
  unit_price : ℚ
  currency : String
  payment_status : String
  remarks : String
deriving DecidableEq, Repr

/-- The data dict built by the purchase form, with
`amount = quantity * unit_price` computed at entry
(hra.py lines 846, 859-870). -/
def purchase_row (f : PurchaseForm) : Row :=
  [("purchase_no", .s f.purchase_no), ("purchase_date", .s f.purchase_date),
   ("supplier_code", .s f.supplier_code), ("product_name", .s f.product_name),
   ("quantity", .n f.quantity), ("unit_price", .n f.unit_price),
   ("amount", .n (f.quantity * f.unit_price)), ("currency", .s f.currency),
   ("payment_status", .s f.payment_status), ("remarks", .s f.remarks)]

/-- Purchase form submission (hra.py lines 855-875). -/
def purchase_submit (storeErr : Option String) (tbl : Table) (f : PurchaseForm) : SubmitOut :=
  if f.purchase_no == "" || f.supplier_code == "" || f.product_name == "" then
    ⟨tbl, [], some "매입번호, 공급업체코드, 품목명은 필수 입력 항목입니다."⟩
  else
    ⟨(execute_query storeErr tbl .insert (purchase_row f) []).table,
     [purchase_row f], none⟩

/-- The trade transaction form (hra.py lines 931-954). -/
structure TradeForm where
  transaction_no : String
  transaction_type : String
  transaction_date : String
  client_code : String
  product_name : String
  quantity : ℚ
  unit_price : ℚ
  currency : String
  exchange_rate : ℚ
  customs_status : String
  bl_no : String
  remarks : String
deriving DecidableEq, Repr

/-- The data dict built by the trade form, with
`amount = quantity * unit_price` and `krw_amount = amount * exchange_rate`
computed at entry (hra.py lines 944, 949, 962-977). -/
def trade_row (f : TradeForm) : Row :=
  [("transaction_no", .s f.transaction_no),
   ("transaction_type", .s f.transaction_type),
   ("transaction_date", .s f.transaction_date),
   ("client_code", .s f.client_code), ("product_name", .s f.product_name),
   ("quantity", .n f.quantity), ("unit_price", .n f.unit_price),
   ("amount", .n (f.quantity * f.unit_price)), ("currency", .s f.currency),
   ("exchange_rate", .n f.exchange_rate),
   ("krw_amount", .n (f.quantity * f.unit_price * f.exchange_rate)),
   ("customs_status", .s f.customs_status), ("bl_no", .s f.bl_no),
   ("remarks", .s f.remarks)]

/-- Trade form submission (hra.py lines 958-982). -/
def trade_submit (storeErr : Option String) (tbl : Table) (f : TradeForm) : SubmitOut :=
  if f.transaction_no == "" || f.client_code == "" || f.product_name == "" then
    ⟨tbl, [], some "거래번호, 거래처코드, 품목명은 필수 입력 항목입니다."⟩
  else
    ⟨(execute_query storeErr tbl .insert (trade_row f) []).table,
     [trade_row f], none⟩

/-! ### Workflow screens: list views (hra.py)

Each list view fetches its whole table (`execute_query(name)`, a select
with no filters), then filters the DataFrame in memory: a non-empty
text input filters by `Series.str.contains(pat, na=False)` — by
default a case-sensitive regular-expression search of the pattern in
the field's value, with rows whose field is missing or non-string
excluded (`na=False`) — and a selectbox value other than the
all-sentinel filters by exact equality.  The library's pattern matcher
is external code and is passed to the views as an explicit parameter
`pdContains : String → String → Bool` (pattern, value ↦ match);
`pdStrContains` below is a model of that matcher, exact on the
fragment of patterns consisting of literal characters and the
any-character metacharacter. -/

/-- `reMatchesAt pat t` : the regex pattern matches a leading segment
of `t`, for the fragment of patterns consisting of literal characters
and the any-character metacharacter `.` (on which it agrees with
Python's `re`); no other construct occurs in the patterns this model is
applied to. -/
def reMatchesAt : List Char → List Char → Bool
  | [], _ => true
  | _ :: _, [] => false
  | p :: ps, c :: cs => (p == '.' || p == c) && reMatchesAt ps cs

/-- `re.search`: the pattern matches at some position of the text
(same fragment as `reMatchesAt`). -/
def reSearch (pat : List Char) : List Char → Bool
  | [] => pat.isEmpty
  | c :: cs => reMatchesAt pat (c :: cs) || reSearch pat cs

/-- Models the matcher of pandas `Series.str.contains(pat, na=False)`
(default `regex=True`): a case-sensitive regular-expression search of
the pattern in the value.  Exact for patterns made of literal
characters and `.`; it is applied only to such patterns below. -/
def pdStrContains (pat v : String) : Bool :=
  reSearch pat.toList v.toList

/-- The regular-expression metacharacters of Python's `re` (the two
brace characters written via their code points). -/
def isRegexMeta (c : Char) : Bool :=
  ['.', '^', '$', '*', '+', '?', Char.ofNat 123, Char.ofNat 125,
   '[', ']', '\\', '|', '(', ')'].contains c

/-- pandas `df[k].str.contains(pat, na=False)` row predicate, the
library matcher abstracted as `pdContains`. -/
def strFieldContains (pdContains : String → String → Bool) (k pat : String) (r : Row) : Bool :=
  match rowLookup r k with
  | some (.s v) => pdContains pat v
  | _ => false

/-- pandas `df[k] == v` row predicate. -/
def fieldEq (k : String) (v : Val) (r : Row) : Bool :=
  rowLookup r k == some v

/-- The employee list view's fetch-then-filter pipeline
(hra.py lines 378-386). -/
def employee_list (pdContains : String → String → Bool) (db : Table)
    (searchName searchDept searchStatus : String) : Table :=
  let df := ((execute_query none db .select [] []).rows).getD []
  let df := if searchName != "" then df.filter (strFieldContains pdContains "name" searchName) else df
  let df := if searchDept != "" then df.filter (strFieldContains pdContains "department" searchDept) else df
  if searchStatus != "전체" then df.filter (fieldEq "status" (.s searchStatus)) else df

/-- The payroll list view's pipeline (hra.py lines 524-528); the date
input of the screen is never applied as a filter. -/
def payroll_list (pdContains : String → String → Bool) (db : Table)
    (searchEmp : String) : Table :=
  let df := ((execute_query none db .select [] []).rows).getD []
  if searchEmp != "" then df.filter (strFieldContains pdContains "employee_code" searchEmp) else df

/-- The client list view's pipeline (hra.py lines 598-604). -/
def client_list (pdContains : String → String → Bool) (db : Table)
    (searchName searchCountry : String) : Table :=
  let df := ((execute_query none db .select [] []).rows).getD []
  let df := if searchName != "" then df.filter (strFieldContains pdContains "client_name" searchName) else df
  if searchCountry != "" then df.filter (strFieldContains pdContains "country" searchCountry) else df

/-- The sales list view's pipeline (hra.py lines 729-733); the date
inputs are never applied as filters. -/
def sales_list (pdContains : String → String → Bool) (db : Table)
    (searchClient : String) : Table :=
  let df := ((execute_query none db .select [] []).rows).getD []
  if searchClient != "" then df.filter (strFieldContains pdContains "client_code" searchClient) else df

/-- The purchase list view's pipeline (hra.py lines 810-814). -/
def purchase_list (pdContains : String → String → Bool) (db : Table)
    (searchSupplier : String) : Table :=
  let df := ((execute_query none db .select [] []).rows).getD []
  if searchSupplier != "" then df.filter (strFieldContains pdContains "supplier_code" searchSupplier) else df

/-- The trade list view's pipeline (hra.py lines 896-900). -/
def trade_list (db : Table) (searchType : String) : Table :=
  let df := ((execute_query none db .select [] []).rows).getD []
  if searchType != "전체" then df.filter (fieldEq "transaction_type" (.s searchType)) else df

/-! ### Approval-flow authentication (hra2.py)

The `users` table of hra2.py is embedded with a fixed schema; the
columns the claims never touch (`id`, `created_at`, `approved_at`) are
omitted.  `hash_password` is an abstract parameter `hash`. -/

/-- One row of the `users` table of hra2.py. -/
structure UserRow where
  email : String
  password_hash : String
  name : String
  role : String
  status : String
  email_verified : Bool
  verification_code : String
  last_login : Option String
deriving DecidableEq, Repr

/-- `generate_verification_code` (hra2.py lines 64-66): six draws of
`secrets.randbelow(10)`, each rendered with `str` and joined.  The
random source is the abstract stream `rand`; `% 10` models
`randbelow(10)`. -/
def generate_verification_code (rand : ℕ → ℕ) : String :=
  String.join ((List.range 6).map (fun i => toString (rand i % 10)))

/-- Outcome triple of `register_user` (hra2.py lines 83-108): the
`users` table afterwards, the success flag with its message, and the
verification code returned to the caller. -/
structure RegisterOut where
  table : List UserRow
  ok : Bool
  msg : String
  code : Option String
deriving DecidableEq, Repr

/-- `register_user(email, password, name)` (hra2.py lines 83-108):
duplicate-email check by select on `email`; otherwise insert one row
with role `user`, status `pending`, `email_verified=False` and a fresh
verification code, which is returned. -/
def register_user (hash : String → String) (rand : ℕ → ℕ)
    (db : List UserRow) (email password name : String) : RegisterOut :=
  if !(db.filter (fun u => u.email == email)).isEmpty then
    ⟨db, false, "이미 등록된 이메일입니다.", none⟩
  else
    let verification_code := generate_verification_code rand
    ⟨db ++ [⟨email, hash password, name, "user", "pending", false, verification_code, none⟩],
     true, "회원가입이 완료되었습니다! 관리자 승인을 기다려주세요.", some verification_code⟩

/-- Outcome of `verify_email_code` (hra2.py lines 110-122). -/
structure VerifyOut where
  table : List UserRow
  ok : Bool
  msg : String
deriving DecidableEq, Repr

/-- `verify_email_code(email, code)` (hra2.py lines 110-122): select
rows matching both the email and the code; when some row matches, set
`email_verified=True` on every row with that email, else report the
code mismatch and touch nothing. -/
def verify_email_code (db : List UserRow) (email code : String) : VerifyOut :=
  if !(db.filter (fun u => u.email == email && u.verification_code == code)).isEmpty then
    ⟨db.map (fun u => if u.email == email then { u with email_verified := true } else u),
     true, "이메일 인증이 완료되었습니다!"⟩
  else
    ⟨db, false, "인증 코드가 일치하지 않습니다."⟩

/-- Result of `login_user`: either the signed-in user or the error
message shown (`(False, None, msg)` in the source). -/
inductive LoginResult where
  | success (u : UserRow)
  | failure (msg : String)
deriving DecidableEq, Repr

/-- `login_user` message: email verification required. -/
def msgUnverified : String :=
  "이메일 인증이 필요합니다. 회원가입 시 받은 인증 코드를 입력하세요."

/-- `login_user` message: awaiting administrator approval. -/
def msgPending : String :=
  "관리자 승인 대기중입니다. 승인 후 로그인할 수 있습니다."

/-- `login_user` message: account rejected. -/
def msgRejected : String :=
  "계정이 거부되었습니다. 관리자에게 문의하세요."

/-- `login_user` message: unrecognised account status. -/
def msgUnknownStatus : String :=
  "계정 상태를 확인할 수 없습니다."

/-- `login_user` message: email or password does not match. -/
def msgBadCredentials : String :=
  "이메일 또는 비밀번호가 일치하지 않습니다."

/-- The credential match of `login_user`'s select: both `email` and
`password_hash` equal. -/
def credMatch (hash : String → String) (email password : String) (u : UserRow) : Bool :=
  u.email == email && u.password_hash == hash password

/-- `login_user(email, password)` of hra2.py lines 124-153: select by
email and password hash and take the first row; then, in order, check
`email_verified`, `status == pending`, `status == rejected`,
`status != approved`; on success update `last_login` to `now` and
return the user. -/
def login_user (hash : String → String) (now : String)
    (db : List UserRow) (email password : String) : List UserRow × LoginResult :=
  match db.filter (credMatch hash email password) with
  | [] => (db, .failure msgBadCredentials)
  | u :: _ =>
    if !u.email_verified then (db, .failure msgUnverified)
    else if u.status == "pending" then (db, .failure msgPending)
    else if u.status == "rejected" then (db, .failure msgRejected)
    else if u.status != "approved" then (db, .failure msgUnknownStatus)
    else
      (db.map (fun v => if v.email == email then { v with last_login := some now } else v),
       .success u)

/-- Whether a `login_user` outcome is a successful sign-in. -/
def LoginResult.isSuccess : LoginResult → Bool
  | .success _ => true
  | .failure _ => false

/-! ### Bulk spreadsheet import

`upload_excel_data` (hra.py lines 269-292, hra2.py lines 531-554,
identical bodies).  The parsed spreadsheet is a header `cols` plus rows
of cells, a cell being `none` for a missing value (NaN).  `parseDate`
models `pd.to_datetime` followed by `strftime` on one value: `none`
means the value does not parse, so `pd.to_datetime` raises on the whole
column and the outer `except` aborts the import.  A missing cell in a
date column stays missing (`to_datetime(NaN) = NaT`).  Per-row insert
outcomes come from the store-failure stream `storeErrs`. -/

/-- A spreadsheet cell: `none` is a missing value. -/
abbrev Cell := Option Val

/-- Rename the header per the fixed `column_mapping`
(`df.rename(columns=column_mapping)`). -/
def renameCols (mapping : List (String × String)) (cols : List String) : List String :=
  cols.map (fun c => (((mapping.find? (fun kv => kv.1 == c)).map (·.2)).getD c))

/-- Python `str.lower()` on a column name, character by character
(column names here are ASCII or Korean, on which this agrees with
Python). -/
def lowerStr (s : String) : String :=
  ⟨s.data.map Char.toLower⟩

/-- `'date' in col.lower()`: the column receives date coercion. -/
def isDateCol (c : String) : Bool :=
  hasSub "date" (lowerStr c)

/-- Coerce one cell of the sheet: in a date column a present value must
parse (outer `none` = the exception aborting the file), a missing value
stays missing; other columns pass through. -/
def coerceCell (parseDate : Val → Option Val) (isDate : Bool) (cell : Cell) :
    Option Cell :=
  if isDate then
    match cell with
    | none => some none
    | some v => (parseDate v).map some
  else some cell

/-- Coerce every cell of one row against the (renamed) header; any
failing cell fails the whole row (and hence the file). -/
def coerceRowCells (parseDate : Val → Option Val) :
    List String → List Cell → Option (List Cell)
  | c :: cs, x :: xs =>
    match coerceCell parseDate (isDateCol c) x, coerceRowCells parseDate cs xs with
    | some y, some ys => some (y :: ys)
    | _, _ => none
  | _, _ => some []

/-- Coerce every row of the sheet: `pd.to_datetime` applied to each
date-like column raises — aborting the whole import — as soon as any
present value fails to parse. -/
def coerceAll (parseDate : Val → Option Val) (cols : List String) :
    List (List Cell) → Option (List (List Cell))
  | [] => some []
  | r :: rs =>
    match coerceRowCells parseDate cols r, coerceAll parseDate cols rs with
    | some c, some cs => some (c :: cs)
    | _, _ => none

/-- `df.fillna('')`: replace each missing value by the empty string. -/
def fillNA (cells : List Cell) : List Val :=
  cells.map (fun c => c.getD (.s ""))

/-- One record of `df.to_dict('records')`. -/
def mkRecord (cols : List String) (cells : List Cell) : Row :=
  cols.zip (fillNA cells)

/-- Result of `upload_excel_data`: the table afterwards, the data
arguments of the insert calls issued, the returned pair
`(success_count, total)`, and the file-level error shown, if any. -/
structure UploadOut where
  table : Table
  attempts : List Row
  succeeded : ℕ
  total : ℕ
  fileError : Option String
deriving DecidableEq, Repr

/-- The insert loop of `upload_excel_data`: insert each record in
order, counting those whose `execute_query` call returned a truthy
(non-`None`, non-empty) result. -/
def uploadInserts (storeErrs : ℕ → Option String) (tbl : Table) (i : ℕ) :
    List Row → Table × ℕ
  | [] => (tbl, 0)
  | r :: rs =>
    let q := execute_query (storeErrs i) tbl .insert r []
    let hit : ℕ := match q.rows with
      | some (_ :: _) => 1
      | _ => 0
    let rest := uploadInserts storeErrs q.table (i + 1) rs
    (rest.1, hit + rest.2)

/-- `upload_excel_data(uploaded_file, table_name, column_mapping)`
(hra.py lines 269-292): rename columns, coerce every date-like column
(aborting the whole file when any present value fails to parse),
replace missing values with the empty string, insert row by row, and
return `(success_count, total)`. -/
def upload_excel_data (parseDate : Val → Option Val)
    (storeErrs : ℕ → Option String) (mapping : List (String × String))
    (tbl : Table) (cols : List String) (rows : List (List Cell)) : UploadOut :=
  let cols2 := renameCols mapping cols
  match coerceAll parseDate cols2 rows with
  | none => ⟨tbl, [], 0, 0, some "엑셀 업로드 오류"⟩
  | some coerced =>
    let records := coerced.map (mkRecord cols2)
    let done := uploadInserts storeErrs tbl 0 records
    ⟨done.1, records, done.2, records.length, none⟩

/-! ### Spec-side error taxonomy for the persistence gateway

The specification describes a two-way classification of backing-store
errors; the code under `src/` contains no such classification (both
`execute_query` bodies have a single generic `except` branch), so the
spec's classification is modelled here for comparison. -/

/-- The specification's taxonomy of surfaced backing-store errors:
either a generic database error carrying the store's message, or the
distinct policy-misconfiguration condition. -/
inductive SpecDbReport where
  | generic (msg : String)
  | policyMisconfiguration (msg : String)
deriving DecidableEq, Repr

/-- Modelled from the spec: the spec's error translation, absent from
`src/` — "a recursive-policy error from the store's authorization layer
is recognized by message substring and reported as a distinct
PolicyMisconfiguration condition".  The spec does not name the
substring; the hosted store's recursive row-level-security failure
message contains "infinite recursion detected in policy", which is used
here. -/
def spec_report (msg : String) : SpecDbReport :=
  if hasSub "infinite recursion detected in policy" msg then
    .policyMisconfiguration msg
  else
    .generic msg

/-- A concrete recursive-policy error message as raised by the hosted
store's authorization layer. -/
def policyMsg : String :=
  "infinite recursion detected in policy for relation \"users\""

/-! ### Helper lemmas: substring containment -/

/-- `startsWithL` decides list-prefix: some tail completes `h`. -/
theorem startsWithL_iff (n : List Char) :
    ∀ h : List Char, startsWithL n h = true ↔ ∃ t, h = n ++ t := by
  induction n with
  | nil =>
    intro h
    simp [startsWithL]
  | cons c cs ih =>
    intro h
    cases h with
    | nil =>
      simp [startsWithL]
    | cons d ds =>
      simp only [startsWithL, Bool.and_eq_true, beq_iff_eq, ih ds]
      constructor
      · rintro ⟨rfl, t, rfl⟩
        exact ⟨t, rfl⟩
      · rintro ⟨t, ht⟩
        cases ht
        exact ⟨rfl, t, rfl⟩

/-- `hasSubL` decides contiguous containment: `h` splits around `n`. -/
theorem hasSubL_iff (n : List Char) :
    ∀ h : List Char, hasSubL n h = true ↔ ∃ l r, h = l ++ n ++ r := by
  intro h
  induction h with
  | nil =>
    simp only [hasSubL, List.isEmpty_iff]
    constructor
    · rintro rfl
      exact ⟨[], [], rfl⟩
    · rintro ⟨l, r, hlr⟩
      rcases List.append_eq_nil.mp hlr.symm with ⟨h1, h2⟩
      exact (List.append_eq_nil.mp h1).2
  | cons d ds ih =>
    simp only [hasSubL, Bool.or_eq_true, startsWithL_iff, ih]
    constructor
    · rintro (⟨t, ht⟩ | ⟨l, r, hlr⟩)
      · exact ⟨[], t, by simp [ht]⟩
      · exact ⟨d :: l, r, by simp [hlr]⟩
    · rintro ⟨l, r, hlr⟩
      cases l with
      | nil =>
        exact Or.inl ⟨r, by simpa using hlr⟩
      | cons x xs =>
        rcases List.cons_eq_cons.mp hlr with ⟨rfl, h2⟩
        exact Or.inr ⟨xs, r, h2⟩

/-- `hasSub` is case-sensitive substring containment on the character
sequences of the two strings. -/
theorem hasSub_iff (pat v : String) :
    hasSub pat v = true ↔ ∃ l r, v.toList = l ++ pat.toList ++ r :=
  hasSubL_iff pat.toList v.toList

/-- On a pattern with no any-character metacharacter, the regex
leading-segment match degenerates to the literal one. -/
theorem reMatchesAt_eq_startsWithL (pat : List Char) (hdot : '.' ∉ pat) :
    ∀ t, reMatchesAt pat t = startsWithL pat t := by
  induction pat with
  | nil =>
    intro t
    cases t <;> rfl
  | cons p ps ih =>
    intro t
    cases t with
    | nil => rfl
    | cons c cs =>
      have hp : (p == '.') = false := by
        simp only [List.mem_cons, not_or] at hdot
        exact beq_eq_false_iff_ne.mpr (fun he => hdot.1 he.symm)
      have hps : '.' ∉ ps := by
        simp only [List.mem_cons, not_or] at hdot
        exact hdot.2
      show ((p == '.' || p == c) && reMatchesAt ps cs) = ((p == c) && startsWithL ps cs)
      rw [hp, Bool.false_or, ih hps cs]

/-- On a pattern with no any-character metacharacter, the regex search
degenerates to literal substring containment. -/
theorem reSearch_eq_hasSubL (pat : List Char) (hdot : '.' ∉ pat) :
    ∀ t, reSearch pat t = hasSubL pat t := by
  intro t
  induction t with
  | nil => rfl
  | cons c cs ih =>
    simp [reSearch, hasSubL, reMatchesAt_eq_startsWithL pat hdot, ih]

/-! ### Helper lemmas: verification-code digits -/

/-- Rendering a natural below ten yields its single digit character. -/
theorem toList_toString_digit (e : ℕ) (h : e < 10) :
    (toString e).toList = [Nat.digitChar e] := by
  interval_cases e <;> rfl

/-- The digit characters of naturals below ten are decimal digits. -/
theorem digitChar_isDigit (e : ℕ) (h : e < 10) :
    (Nat.digitChar e).isDigit = true := by
  interval_cases e <;> rfl

/-- The characters of a generated verification code, explicitly. -/
theorem gvc_toList (rand : ℕ → ℕ) :
    (generate_verification_code rand).toList =
      [Nat.digitChar (rand 0 % 10), Nat.digitChar (rand 1 % 10),
       Nat.digitChar (rand 2 % 10), Nat.digitChar (rand 3 % 10),
       Nat.digitChar (rand 4 % 10), Nat.digitChar (rand 5 % 10)] := by
  have key : ∀ d : ℕ, (toString (d % 10)).data = [Nat.digitChar (d % 10)] :=
    fun d => toList_toString_digit (d % 10) (Nat.mod_lt _ (by norm_num))
  show (String.join [toString (rand 0 % 10), toString (rand 1 % 10),
    toString (rand 2 % 10), toString (rand 3 % 10), toString (rand 4 % 10),
    toString (rand 5 % 10)]).toList = _
  simp only [String.join, List.foldl]
  show (("" ++ toString (rand 0 % 10) ++ toString (rand 1 % 10) ++ toString (rand 2 % 10)
      ++ toString (rand 3 % 10) ++ toString (rand 4 % 10) ++ toString (rand 5 % 10))).toList = _
  show (("" ++ toString (rand 0 % 10) ++ toString (rand 1 % 10) ++ toString (rand 2 % 10)
      ++ toString (rand 3 % 10) ++ toString (rand 4 % 10) ++ toString (rand 5 % 10))).data = _
  simp only [String.data_append, key]
  rfl

/-! ### Helper lemma: the import loop's success count -/

/-- The insert loop counts exactly the calls for which the store raised
no exception: an insert with no store failure returns the non-empty
`[record]`, a failing one returns `None`. -/
theorem uploadInserts_count (storeErrs : ℕ → Option String) :
    ∀ (rs : List Row) (tbl : Table) (i : ℕ),
      (uploadInserts storeErrs tbl i rs).2 =
        (List.range rs.length).countP (fun j => (storeErrs (i + j)).isNone) := by
  intro rs
  induction rs with
  | nil =>
    intro tbl i
    simp [uploadInserts]
  | cons r rs ih =>
    intro tbl i
    have hshift : ((List.range rs.length).map Nat.succ).countP
        (fun j => (storeErrs (i + j)).isNone) =
        (List.range rs.length).countP (fun j => (storeErrs (i + 1 + j)).isNone) := by
      rw [List.countP_map]
      refine List.countP_congr (fun j _ => ?_)
      have harg : i + Nat.succ j = i + 1 + j := by omega
      simp [Function.comp, harg]
    cases h : storeErrs i with
    | none =>
      simp only [uploadInserts, h, execute_query]
      rw [ih (tbl ++ [r]) (i + 1), List.length_cons, List.range_succ_eq_map,
        List.countP_cons, hshift]
      simp [h]
      omega
    | some e =>
      simp only [uploadInserts, h, execute_query]
      rw [ih tbl (i + 1), List.length_cons, List.range_succ_eq_map,
        List.countP_cons, hshift]
      simp [h]

/-! ## Claim theorems -/

/-- C3: for every table state, `execute_query` with operation `update`
or `delete` and an empty (or absent — both make Python's `not filters`
true) filter map raises the missing-filter `ValueError`, which is
surfaced to the user as a database error message; the table is left
unchanged (no row is mutated) and `None` is returned, whatever the
backing store would have done. -/
theorem update_delete_require_filters (storeErr : Option String) (tbl : Table) (data : Row) :
    execute_query storeErr tbl .update data [] =
      ⟨tbl, none, some "데이터베이스 오류: Update operation requires filters"⟩
    ∧ execute_query storeErr tbl .delete data [] =
      ⟨tbl, none, some "데이터베이스 오류: Delete operation requires filters"⟩ :=
  ⟨rfl, rfl⟩

/-- C4: every record built by a create form satisfies the derived-field
equations exactly: `amount = quantity * unit_price` for sales,
purchases and trade records, `krw_amount = amount * exchange_rate` for
trade records, and `net_salary = base_salary + bonus - deduction` for
payroll records — the derived value stored in the row is the exact
product/sum of the stored inputs, computed at entry. -/
theorem derived_fields_exact (sf : SalesForm) (uf : PurchaseForm)
    (tf : TradeForm) (yf : PayrollForm) :
    valN (sales_row sf) "amount" =
      valN (sales_row sf) "quantity" * valN (sales_row sf) "unit_price"
    ∧ valN (purchase_row uf) "amount" =
      valN (purchase_row uf) "quantity" * valN (purchase_row uf) "unit_price"
    ∧ valN (trade_row tf) "amount" =
      valN (trade_row tf) "quantity" * valN (trade_row tf) "unit_price"
    ∧ valN (trade_row tf) "krw_amount" =
      valN (trade_row tf) "amount" * valN (trade_row tf) "exchange_rate"
    ∧ valN (payroll_row yf) "net_salary" =
      valN (payroll_row yf) "base_salary" + valN (payroll_row yf) "bonus"
        - valN (payroll_row yf) "deduction" :=
  ⟨rfl, rfl, rfl, rfl, rfl⟩

/-- C8 counterexample: a backing-store exception whose message contains
the recursive-policy substring is surfaced by `execute_query` through
the very same generic database-error branch as any other store failure
(`st.error` with the message appended to the generic Korean text, value
`None`), while the spec's classification demands the distinct
`PolicyMisconfiguration` condition for it; no code path in either
source file produces such a condition. -/
theorem policy_error_not_distinct_cx :
    (execute_query (some policyMsg) ([] : Table) .select [] []).err =
      some ("데이터베이스 오류: " ++ policyMsg)
    ∧ (execute_query (some "connection reset") ([] : Table) .select [] []).err =
      some ("데이터베이스 오류: " ++ "connection reset")
    ∧ spec_report policyMsg = .policyMisconfiguration policyMsg
    ∧ spec_report "connection reset" = .generic "connection reset"
    ∧ SpecDbReport.policyMisconfiguration policyMsg ≠ .generic policyMsg := by
  refine ⟨rfl, rfl, ?_, ?_, by simp⟩
  · rfl
  · rfl

/-- C8 amended: every backing-store error in `execute_query` is
surfaced as the generic database error with the store's message
attached (and `None` returned) — including recursive-policy errors; for
update/delete this holds whenever a filter is present (with no filter
the missing-filter `ValueError` is surfaced instead, before any store
call). -/
theorem db_errors_generic (m : String) (tbl : Table) (data : Row) (filters : Filters)
    (hf : filters ≠ []) :
    execute_query (some m) tbl .select data filters =
      ⟨tbl, none, some ("데이터베이스 오류: " ++ m)⟩
    ∧ execute_query (some m) tbl .insert data filters =
      ⟨tbl, none, some ("데이터베이스 오류: " ++ m)⟩
    ∧ execute_query (some m) tbl .update data filters =
      ⟨tbl, none, some ("데이터베이스 오류: " ++ m)⟩
    ∧ execute_query (some m) tbl .delete data filters =
      ⟨tbl, none, some ("데이터베이스 오류: " ++ m)⟩ := by
  have hfe : filters.isEmpty = false := by
    simpa [List.isEmpty_iff] using hf
  refine ⟨rfl, rfl, ?_, ?_⟩ <;> simp [execute_query, hfe]

/-- C8 amended, witness at a concrete input. -/
theorem db_errors_generic_witness :
    execute_query (some policyMsg) ([] : Table) .update [] [("id", .n 1)] =
      ⟨[], none, some ("데이터베이스 오류: " ++ policyMsg)⟩ :=
  (db_errors_generic policyMsg [] [] [("id", .n 1)] (by simp)).2.2.1

/-- C1: for each of the six entity create forms, submitting with any
required business-key/name field blank reports the screen's
missing-required-field error and issues no insert, leaving the table
untouched; with all required fields non-blank no validation error is
shown and exactly one insert of the form's data dict is issued (when
the store call succeeds, the table gains exactly that row). -/
theorem create_blank_vs_insert (storeErr : Option String) (tbl : Table)
    (ef : EmployeeForm) (yf : PayrollForm) (cf : ClientForm)
    (sf : SalesForm) (uf : PurchaseForm) (tf : TradeForm) :
    ((ef.employee_code = "" ∨ ef.name = "") →
      employee_submit storeErr tbl ef = ⟨tbl, [], some "사번과 이름은 필수 입력 항목입니다."⟩)
    ∧ (ef.employee_code ≠ "" → ef.name ≠ "" →
      (employee_submit storeErr tbl ef).inserts = [employee_row ef]
      ∧ (employee_submit storeErr tbl ef).validationError = none
      ∧ employee_submit none tbl ef = ⟨tbl ++ [employee_row ef], [employee_row ef], none⟩)
    ∧ (yf.employee_code = "" →
      payroll_submit storeErr tbl yf = ⟨tbl, [], some "사번은 필수 입력 항목입니다."⟩)
    ∧ (yf.employee_code ≠ "" →
      (payroll_submit storeErr tbl yf).inserts = [payroll_row yf]
      ∧ (payroll_submit storeErr tbl yf).validationError = none
      ∧ payroll_submit none tbl yf = ⟨tbl ++ [payroll_row yf], [payroll_row yf], none⟩)
    ∧ ((cf.client_code = "" ∨ cf.client_name = "") →
      client_submit storeErr tbl cf = ⟨tbl, [], some "거래처코드와 거래처명은 필수 입력 항목입니다."⟩)
    ∧ (cf.client_code ≠ "" → cf.client_name ≠ "" →
      (client_submit storeErr tbl cf).inserts = [client_row cf]
      ∧ (client_submit storeErr tbl cf).validationError = none
      ∧ client_submit none tbl cf = ⟨tbl ++ [client_row cf], [client_row cf], none⟩)
    ∧ ((sf.sales_no = "" ∨ sf.client_code = "" ∨ sf.product_name = "") →
      sales_submit storeErr tbl sf = ⟨tbl, [], some "매출번호, 거래처코드, 품목명은 필수 입력 항목입니다."⟩)
    ∧ (sf.sales_no ≠ "" → sf.client_code ≠ "" → sf.product_name ≠ "" →
      (sales_submit storeErr tbl sf).inserts = [sales_row sf]
      ∧ (sales_submit storeErr tbl sf).validationError = none
      ∧ sales_submit none tbl sf = ⟨tbl ++ [sales_row sf], [sales_row sf], none⟩)
    ∧ ((uf.purchase_no = "" ∨ uf.supplier_code = "" ∨ uf.product_name = "") →
      purchase_submit storeErr tbl uf = ⟨tbl, [], some "매입번호, 공급업체코드, 품목명은 필수 입력 항목입니다."⟩)
    ∧ (uf.purchase_no ≠ "" → uf.supplier_code ≠ "" → uf.product_name ≠ "" →
      (purchase_submit storeErr tbl uf).inserts = [purchase_row uf]
      ∧ (purchase_submit storeErr tbl uf).validationError = none
      ∧ purchase_submit none tbl uf = ⟨tbl ++ [purchase_row uf], [purchase_row uf], none⟩)
    ∧ ((tf.transaction_no = "" ∨ tf.client_code = "" ∨ tf.product_name = "") →
      trade_submit storeErr tbl tf = ⟨tbl, [], some "거래번호, 거래처코드, 품목명은 필수 입력 항목입니다."⟩)
    ∧ (tf.transaction_no ≠ "" → tf.client_code ≠ "" → tf.product_name ≠ "" →
      (trade_submit storeErr tbl tf).inserts = [trade_row tf]
      ∧ (trade_submit storeErr tbl tf).validationError = none
      ∧ trade_submit none tbl tf = ⟨tbl ++ [trade_row tf], [trade_row tf], none⟩) := by
  refine ⟨?_, ?_, ?_, ?_, ?_, ?_, ?_, ?_, ?_, ?_, ?_, ?_⟩
  · intro h
    rcases h with h | h <;> simp [employee_submit, h]
  · intro h1 h2
    exact ⟨by simp [employee_submit, h1, h2],
      by simp [employee_submit, h1, h2],
      by simp [employee_submit, h1, h2, execute_query]⟩
  · intro h
    simp [payroll_submit, h]
  · intro h1
    exact ⟨by simp [payroll_submit, h1],
      by simp [payroll_submit, h1],
      by simp [payroll_submit, h1, execute_query]⟩
  · intro h
    rcases h with h | h <;> simp [client_submit, h]
  · intro h1 h2
    exact ⟨by simp [client_submit, h1, h2],
      by simp [client_submit, h1, h2],
      by simp [client_submit, h1, h2, execute_query]⟩
  · intro h
    rcases h with h | h | h <;> simp [sales_submit, h]
  · intro h1 h2 h3
    exact ⟨by simp [sales_submit, h1, h2, h3],
      by simp [sales_submit, h1, h2, h3],
      by simp [sales_submit, h1, h2, h3, execute_query]⟩
  · intro h
    rcases h with h | h | h <;> simp [purchase_submit, h]
  · intro h1 h2 h3
    exact ⟨by simp [purchase_submit, h1, h2, h3],
      by simp [purchase_submit, h1, h2, h3],
      by simp [purchase_submit, h1, h2, h3, execute_query]⟩
  · intro h
    rcases h with h | h | h <;> simp [trade_submit, h]
  · intro h1 h2 h3
    exact ⟨by simp [trade_submit, h1, h2, h3],
      by simp [trade_submit, h1, h2, h3],
      by simp [trade_submit, h1, h2, h3, execute_query]⟩

/-- Concrete employee form with a blank required field, for the C1
witness. -/
def efW : EmployeeForm :=
  ⟨"", "Hong", "Sales", "Manager", "2020-01-15", 5000000, "010-1234", "hong@x.com", "재직중"⟩

/-- Concrete payroll form for the C1 witness. -/
def yfW : PayrollForm := ⟨"EMP001", "2024-01-25", 3000000, 0, 0, ""⟩

/-- Concrete client form for the C1 witness. -/
def cfW : ClientForm := ⟨"CLI001", "ABC", "Trade", "USA", "John", "+1", "j@a.com", ""⟩

/-- Concrete sales form with all required fields filled, for the C1
witness. -/
def sfW : SalesForm :=
  ⟨"S2024001", "2024-01-01", "CLI001", "Widget", 2, 100000, "KRW", "미수금", ""⟩

/-- Concrete purchase form for the C1 witness. -/
def ufW : PurchaseForm :=
  ⟨"P2024001", "2024-01-02", "CLI002", "Material", 1, 50000, "KRW", "미지급", ""⟩

/-- Concrete trade form for the C1 witness. -/
def tfW : TradeForm :=
  ⟨"T2024001", "수출", "2024-01-03", "CLI001", "Parts", 3, 1000, "USD", 1300, "신고중", "BL1", ""⟩

/-- C1 witness: a blank employee code blocks the insert with the
required-field message, and a fully filled sales form performs exactly
the one insert of its data. -/
theorem create_blank_vs_insert_witness :
    employee_submit none [] efW = ⟨[], [], some "사번과 이름은 필수 입력 항목입니다."⟩
    ∧ sales_submit none [] sfW = ⟨[sales_row sfW], [sales_row sfW], none⟩ := by
  have h := create_blank_vs_insert none [] efW yfW cfW sfW ufW tfW
  exact ⟨h.1 (Or.inl rfl),
    (h.2.2.2.2.2.2.2.1 (by decide) (by decide) (by decide)).2.2⟩

/-- The full-table fetch of every list view: a select with no filters
returns every row of the table. -/
theorem select_all_rows (db : Table) :
    (execute_query none db .select [] []).rows = some db := by
  simp [execute_query, matchesFilters]

/-- C9 counterexample: the employee name filter input `.` — a regex
metacharacter — keeps the row whose name is `Hong`, because the code's
`Series.str.contains` interprets the search string as a regular
expression (default `regex=True`) and `.` matches any character; yet
`.` is not a substring of `Hong`, so the non-empty string filters are
not applied as a case-sensitive substring match. -/
theorem list_filter_regex_cx :
    employee_list pdStrContains [[("name", .s "Hong")]] "." "" "전체" =
      [[("name", .s "Hong")]]
    ∧ hasSub "." "Hong" = false := by
  exact ⟨by decide, by decide⟩

/-- C9 amended: each list view fetches the full table (a select with no
filters, no pagination) and then filters in memory; for every matcher
supplied for the library's `Series.str.contains`, a row is listed iff
it belongs to the table and satisfies every given filter conjunctively:
a non-empty text input keeps exactly the rows whose field the matcher
accepts (rows with a missing or non-string field dropped, `na=False`),
and a selectbox value other than the all-sentinel keeps exactly the
rows whose field equals it.  The final conjunct settles the matcher
itself: on patterns free of regex metacharacters the regex search of
`str.contains` coincides exactly with case-sensitive substring
occurrence, so the spec's substring reading holds precisely for literal
search strings. -/
theorem list_views_inmemory_filters (pdContains : String → String → Bool)
    (db : Table) (r : Row) (sn sd ss pe cn cc sc pu tt : String) :
    (r ∈ employee_list pdContains db sn sd ss ↔
      r ∈ db ∧ (sn ≠ "" → strFieldContains pdContains "name" sn r = true)
        ∧ (sd ≠ "" → strFieldContains pdContains "department" sd r = true)
        ∧ (ss ≠ "전체" → fieldEq "status" (.s ss) r = true))
    ∧ (r ∈ payroll_list pdContains db pe ↔
      r ∈ db ∧ (pe ≠ "" → strFieldContains pdContains "employee_code" pe r = true))
    ∧ (r ∈ client_list pdContains db cn cc ↔
      r ∈ db ∧ (cn ≠ "" → strFieldContains pdContains "client_name" cn r = true)
        ∧ (cc ≠ "" → strFieldContains pdContains "country" cc r = true))
    ∧ (r ∈ sales_list pdContains db sc ↔
      r ∈ db ∧ (sc ≠ "" → strFieldContains pdContains "client_code" sc r = true))
    ∧ (r ∈ purchase_list pdContains db pu ↔
      r ∈ db ∧ (pu ≠ "" → strFieldContains pdContains "supplier_code" pu r = true))
    ∧ (r ∈ trade_list db tt ↔
      r ∈ db ∧ (tt ≠ "전체" → fieldEq "transaction_type" (.s tt) r = true))
    ∧ (∀ pat v : String, (∀ c ∈ pat.toList, isRegexMeta c = false) →
        (pdStrContains pat v = true ↔ ∃ l r2, v.toList = l ++ pat.toList ++ r2)) := by
  refine ⟨?_, ?_, ?_, ?_, ?_, ?_, ?_⟩
  · by_cases h1 : sn = "" <;> by_cases h2 : sd = "" <;> by_cases h3 : ss = "전체" <;>
      simp [employee_list, select_all_rows, h1, h2, h3, List.mem_filter, and_assoc] <;>
      tauto
  · by_cases h1 : pe = "" <;>
      simp [payroll_list, select_all_rows, h1, List.mem_filter]
  · by_cases h1 : cn = "" <;> by_cases h2 : cc = "" <;>
      (simp [client_list, select_all_rows, h1, h2, List.mem_filter, and_assoc];
       try tauto)
  · by_cases h1 : sc = "" <;>
      simp [sales_list, select_all_rows, h1, List.mem_filter]
  · by_cases h1 : pu = "" <;>
      simp [purchase_list, select_all_rows, h1, List.mem_filter]
  · by_cases h1 : tt = "전체" <;>
      simp [trade_list, select_all_rows, h1, List.mem_filter]
  · intro pat v hmeta
    have hdot : '.' ∉ pat.toList := by
      intro hc
      have h1 := hmeta '.' hc
      rw [show isRegexMeta '.' = true from by decide] at h1
      cases h1
    rw [show pdStrContains pat v = reSearch pat.toList v.toList from rfl,
      reSearch_eq_hasSubL pat.toList hdot]
    exact hasSubL_iff pat.toList v.toList

/-- C9 amended, witness: on a two-row employee table with the regex
matcher, searching for the metacharacter-free name `Hong` lists the one
matching row, and on that literal pattern the matcher agrees with
substring containment. -/
theorem list_views_inmemory_filters_witness :
    (([("employee_code", HRA.Val.s "EMP001"), ("name", HRA.Val.s "Hong Gildong")] : Row) ∈
      employee_list pdStrContains
        [[("employee_code", .s "EMP001"), ("name", .s "Hong Gildong")],
         [("employee_code", .s "EMP002"), ("name", .s "Kim Chulsoo")]]
        "Hong" "" "전체")
    ∧ pdStrContains "Hong" "Hong Gildong" = true := by
  have h := list_views_inmemory_filters pdStrContains
    [[("employee_code", .s "EMP001"), ("name", .s "Hong Gildong")],
     [("employee_code", .s "EMP002"), ("name", .s "Kim Chulsoo")]]
    [("employee_code", .s "EMP001"), ("name", .s "Hong Gildong")]
    "Hong" "" "전체" "" "" "" "" "" ""
  refine ⟨h.1.mpr ⟨by simp, fun _ => by decide,
    fun hne => absurd rfl hne, fun hne => absurd rfl hne⟩, ?_⟩
  exact (h.2.2.2.2.2.2 "Hong" "Hong Gildong" (by decide)).mpr
    ⟨[], " Gildong".toList, by decide⟩

/-- C2 counterexample: an account whose stored status is `pending` and
whose email/password-hash pair matches, but whose email is unverified,
receives the email-verification error from `login_user`, not the
pending-approval error — the `email_verified` check runs first. -/
theorem login_pending_unverified_cx :
    (login_user id "2026-10-12T00:00:00"
      [⟨"a@b.com", "abcd1234", "Kim", "user", "pending", false, "123456", none⟩]
      "a@b.com" "abcd1234").2 = .failure msgUnverified
    ∧ msgUnverified ≠ msgPending := by
  exact ⟨rfl, by decide⟩

/-- C2 amended: when the first account matched by the email and
password-hash pair has `email_verified = true` and status `pending`,
`login_user` returns the pending-approval error; and whenever that
matched account's status is `rejected`, `login_user` never returns
success (for any verification state). -/
theorem login_pending_rejected_gate (hash : String → String) (now : String)
    (db : List UserRow) (email password : String) (u : UserRow) (rest : List UserRow)
    (hmatch : db.filter (credMatch hash email password) = u :: rest) :
    (u.email_verified = true → u.status = "pending" →
      (login_user hash now db email password).2 = .failure msgPending)
    ∧ (u.status = "rejected" →
      ((login_user hash now db email password).2).isSuccess = false) := by
  unfold login_user
  rw [hmatch]
  constructor
  · intro hv hs
    simp [hv, hs]
  · intro hs
    cases hv : u.email_verified <;>
      simp [hv, hs, LoginResult.isSuccess]

/-- C2 amended, witness: a verified pending account with matching
credentials gets the pending-approval error, and a rejected account
does not sign in. -/
theorem login_pending_rejected_gate_witness :
    (login_user id "t0"
      [⟨"a@b.com", "abcd1234", "Kim", "user", "pending", true, "1", none⟩]
      "a@b.com" "abcd1234").2 = .failure msgPending
    ∧ ((login_user id "t0"
      [⟨"r@b.com", "abcd1234", "Lee", "user", "rejected", true, "1", none⟩]
      "r@b.com" "abcd1234").2).isSuccess = false := by
  refine ⟨?_, ?_⟩
  · exact (login_pending_rejected_gate id "t0"
      [⟨"a@b.com", "abcd1234", "Kim", "user", "pending", true, "1", none⟩]
      "a@b.com" "abcd1234"
      ⟨"a@b.com", "abcd1234", "Kim", "user", "pending", true, "1", none⟩ [] rfl).1 rfl rfl
  · exact (login_pending_rejected_gate id "t0"
      [⟨"r@b.com", "abcd1234", "Lee", "user", "rejected", true, "1", none⟩]
      "r@b.com" "abcd1234"
      ⟨"r@b.com", "abcd1234", "Lee", "user", "rejected", true, "1", none⟩ [] rfl).2 rfl

/-- C10: `login_user` succeeds exactly for a matched account with
`email_verified = true` and status exactly `approved`; the
email-verification check precedes all status checks (an unverified
matched account gets the verification error whatever its status); and a
verified matched account whose status is none of `pending`, `rejected`,
`approved` fails with the distinct unknown-status error. -/
theorem login_user_gate (hash : String → String) (now : String)
    (db : List UserRow) (email password : String) (u : UserRow) (rest : List UserRow)
    (hmatch : db.filter (credMatch hash email password) = u :: rest) :
    (∀ v, (login_user hash now db email password).2 = .success v ↔
      (v = u ∧ u.email_verified = true ∧ u.status = "approved"))
    ∧ (u.email_verified = false →
      (login_user hash now db email password).2 = .failure msgUnverified)
    ∧ (u.email_verified = true → u.status ≠ "pending" → u.status ≠ "rejected" →
      u.status ≠ "approved" →
      (login_user hash now db email password).2 = .failure msgUnknownStatus) := by
  unfold login_user
  rw [hmatch]
  refine ⟨?_, ?_, ?_⟩
  · intro v
    cases hv : u.email_verified
    · simp [hv]
    · by_cases hp : u.status = "pending"
      · simp [hv, hp]
      · by_cases hr : u.status = "rejected"
        · simp [hv, hp, hr]
        · by_cases ha : u.status = "approved"
          · simp [hv, hp, hr, ha]
            try exact eq_comm
          · simp [hv, hp, hr, ha]
  · intro hv
    simp [hv]
  · intro hv hp hr ha
    simp [hv, hp, hr, ha]

/-- C10 witness: a verified account with the unusual status `frozen`
and matching credentials fails with the unknown-status error, and an
approved verified account signs in. -/
theorem login_user_gate_witness :
    (login_user id "t1"
      [⟨"f@b.com", "abcd1234", "Choi", "user", "frozen", true, "1", none⟩]
      "f@b.com" "abcd1234").2 = .failure msgUnknownStatus
    ∧ (login_user id "t1"
      [⟨"a@b.com", "abcd1234", "Kim", "user", "approved", true, "1", none⟩]
      "a@b.com" "abcd1234").2 =
        .success ⟨"a@b.com", "abcd1234", "Kim", "user", "approved", true, "1", none⟩ := by
  refine ⟨?_, ?_⟩
  · exact (login_user_gate id "t1"
      [⟨"f@b.com", "abcd1234", "Choi", "user", "frozen", true, "1", none⟩]
      "f@b.com" "abcd1234"
      ⟨"f@b.com", "abcd1234", "Choi", "user", "frozen", true, "1", none⟩ [] rfl).2.2
      rfl (by decide) (by decide) (by decide)
  · exact ((login_user_gate id "t1"
      [⟨"a@b.com", "abcd1234", "Kim", "user", "approved", true, "1", none⟩]
      "a@b.com" "abcd1234"
      ⟨"a@b.com", "abcd1234", "Kim", "user", "approved", true, "1", none⟩ [] rfl).1 _).mpr
      ⟨rfl, rfl, rfl⟩

/-- C5: `register_user` with an already-registered email returns the
duplicate-email error and inserts nothing; with a fresh email it
inserts exactly one account with role `user`, status `pending`,
`email_verified = false` and the freshly generated verification code,
returning that code to the caller; the generated code is a 6-character
string of decimal digits. -/
theorem register_user_spec (hash : String → String) (rand : ℕ → ℕ)
    (db : List UserRow) (email password name : String) :
    ((∃ u ∈ db, u.email = email) →
      register_user hash rand db email password name =
        ⟨db, false, "이미 등록된 이메일입니다.", none⟩)
    ∧ ((∀ u ∈ db, u.email ≠ email) →
      register_user hash rand db email password name =
        ⟨db ++ [⟨email, hash password, name, "user", "pending", false,
            generate_verification_code rand, none⟩],
         true, "회원가입이 완료되었습니다! 관리자 승인을 기다려주세요.",
         some (generate_verification_code rand)⟩)
    ∧ (generate_verification_code rand).length = 6
    ∧ (∀ c ∈ (generate_verification_code rand).toList, c.isDigit = true) := by
  refine ⟨?_, ?_, ?_, ?_⟩
  · rintro ⟨u, hu, he⟩
    have hmem : u ∈ db.filter (fun v => v.email == email) :=
      List.mem_filter.mpr ⟨hu, by simp [he]⟩
    have hne : db.filter (fun v => v.email == email) ≠ [] :=
      List.ne_nil_of_mem hmem
    simp [register_user, List.isEmpty_iff, hne]
  · intro hall
    have hnil : db.filter (fun v => v.email == email) = [] :=
      List.filter_eq_nil_iff.mpr (fun u hu => by simp [hall u hu])
    simp [register_user, hnil]
  · have h6 : (generate_verification_code rand).toList.length = 6 := by
      rw [gvc_toList]
      rfl
    exact h6
  · intro c hc
    rw [gvc_toList] at hc
    have hdig : ∀ d : ℕ, (Nat.digitChar (d % 10)).isDigit = true :=
      fun d => digitChar_isDigit (d % 10) (Nat.mod_lt _ (by norm_num))
    simp only [List.mem_cons, List.not_mem_nil, or_false] at hc
    rcases hc with rfl | rfl | rfl | rfl | rfl | rfl <;> exact hdig _

/-- C5 witness: registering a fresh email on an empty table inserts the
pending, unverified account and returns the generated six-digit code
(here the code drawn from the identity stream). -/
theorem register_user_spec_witness :
    register_user id (fun i => i) [] "a@b.com" "abcd1234" "Kim" =
      ⟨[⟨"a@b.com", "abcd1234", "Kim", "user", "pending", false, "012345", none⟩],
       true, "회원가입이 완료되었습니다! 관리자 승인을 기다려주세요.", some "012345"⟩ := by
  have h := (register_user_spec id (fun i => i) [] "a@b.com" "abcd1234" "Kim").2.1
    (by simp)
  exact h

/-- C6: `verify_email_code` with a code differing from the stored
verification code of every account under that email reports the
code-mismatch error and leaves the table — in particular every
`email_verified` flag — unchanged; with the matching code it reports
success and sets `email_verified = true` on every account with that
email. -/
theorem verify_email_code_spec (db : List UserRow) (email code storedCode : String)
    (hstored : ∀ u ∈ db, u.email = email → u.verification_code = storedCode) :
    (code ≠ storedCode →
      verify_email_code db email code = ⟨db, false, "인증 코드가 일치하지 않습니다."⟩)
    ∧ ((∃ u ∈ db, u.email = email) → code = storedCode →
      (verify_email_code db email code).ok = true
      ∧ (verify_email_code db email code).msg = "이메일 인증이 완료되었습니다!"
      ∧ (∀ v ∈ (verify_email_code db email code).table,
          v.email = email → v.email_verified = true)) := by
  constructor
  · intro hne
    have hnil : db.filter (fun u => u.email == email && u.verification_code == code) = [] := by
      refine List.filter_eq_nil_iff.mpr (fun u hu => ?_)
      simp only [Bool.and_eq_true, beq_iff_eq, not_and]
      intro he
      rw [hstored u hu he]
      exact fun h => hne h.symm
    simp [verify_email_code, hnil]
  · rintro ⟨u, hu, he⟩ hcode
    have hmem : u ∈ db.filter (fun v => v.email == email && v.verification_code == code) :=
      List.mem_filter.mpr ⟨hu, by simp [he, hstored u hu he, hcode]⟩
    have hne : db.filter (fun v => v.email == email && v.verification_code == code) ≠ [] :=
      List.ne_nil_of_mem hmem
    refine ⟨by simp [verify_email_code, List.isEmpty_iff, hne],
      by simp [verify_email_code, List.isEmpty_iff, hne], ?_⟩
    intro v hv hvemail
    simp only [verify_email_code, List.isEmpty_iff, hne, if_pos, Bool.not_eq_true] at hv
    rw [if_pos (by simpa [List.isEmpty_iff] using hne)] at hv
    obtain ⟨w, hw, rfl⟩ := List.mem_map.mp hv
    by_cases hwe : w.email = email
    · simp [hwe]
    · simp only [show (w.email == email) = false by simpa using hwe, if_neg] at hvemail ⊢
      simp at hvemail
      exact absurd hvemail hwe

/-- C6 witness: on a one-account table, the wrong code is rejected and
changes nothing, and the right code verifies the account. -/
theorem verify_email_code_spec_witness :
    verify_email_code [⟨"a@b.com", "h", "Kim", "user", "pending", false, "123456", none⟩]
      "a@b.com" "000000" =
      ⟨[⟨"a@b.com", "h", "Kim", "user", "pending", false, "123456", none⟩],
       false, "인증 코드가 일치하지 않습니다."⟩
    ∧ (verify_email_code [⟨"a@b.com", "h", "Kim", "user", "pending", false, "123456", none⟩]
      "a@b.com" "123456").ok = true := by
  refine ⟨?_, ?_⟩
  · exact (verify_email_code_spec
      [⟨"a@b.com", "h", "Kim", "user", "pending", false, "123456", none⟩]
      "a@b.com" "000000" "123456"
      (by intro u hu he; simp at hu; rw [hu])).1 (by decide)
  · exact ((verify_email_code_spec
      [⟨"a@b.com", "h", "Kim", "user", "pending", false, "123456", none⟩]
      "a@b.com" "123456" "123456"
      (by intro u hu he; simp at hu; rw [hu])).2
      ⟨⟨"a@b.com", "h", "Kim", "user", "pending", false, "123456", none⟩,
        by simp, rfl⟩ rfl).1

/-- A successful coercion of the whole sheet preserves the row
count. -/
theorem coerceAll_length (parseDate : Val → Option Val) (cols : List String) :
    ∀ (rows coerced : List (List Cell)),
      coerceAll parseDate cols rows = some coerced → coerced.length = rows.length := by
  intro rows
  induction rows with
  | nil =>
    intro coerced h
    simp only [coerceAll, Option.some.injEq] at h
    rw [← h]
  | cons r rs ih =>
    intro coerced h
    simp only [coerceAll] at h
    cases hr : coerceRowCells parseDate cols r with
    | none => rw [hr] at h; exact absurd h (by simp)
    | some c =>
      cases hrs : coerceAll parseDate cols rs with
      | none => rw [hr, hrs] at h; exact absurd h (by simp)
      | some cs =>
        rw [hr, hrs] at h
        simp only [Option.some.injEq] at h
        rw [← h]
        simp [ih cs hrs]

/-- Models `pd.to_datetime` for the C7 instance: every value parses
except the literal `notadate`. -/
def cxParseDate : Val → Option Val
  | .s "notadate" => none
  | v => some v

/-- Ten single-cell spreadsheet rows for a date column, the fifth
holding an unparseable value. -/
def cxRows : List (List Cell) :=
  [[some (.s "2020-01-01")], [some (.s "2020-01-02")], [some (.s "2020-01-03")],
   [some (.s "2020-01-04")], [some (.s "notadate")], [some (.s "2020-01-06")],
   [some (.s "2020-01-07")], [some (.s "2020-01-08")], [some (.s "2020-01-09")],
   [some (.s "2020-01-10")]]

/-- C7 counterexample: importing ten rows whose fifth row carries an
unparseable value in the date-like column attempts no insert at all and
returns `(0, 0)` with a file-level import error — the column-wise
`pd.to_datetime` raises before the insert loop starts, so the result is
not `(succeeded, 10)` and the ten inserts are never attempted. -/
theorem upload_bad_date_aborts_cx :
    cxRows.length = 10
    ∧ upload_excel_data cxParseDate (fun _ => none) [("입사일", "hire_date")]
        [] ["입사일"] cxRows =
      ⟨[], [], 0, 0, some "엑셀 업로드 오류"⟩ := by
  exact ⟨rfl, by decide⟩

/-- C7 amended: when any present value of a date-like column fails to
parse, the import aborts as a whole — no insert is attempted, the table
is untouched and `(0, 0)` is returned with a file-level error;
otherwise all N rows are attempted in order and `(succeeded, N)` is
returned, `succeeded` counting exactly the rows whose individual insert
call returned a non-empty result (the store calls that raised no
exception). -/
theorem upload_excel_semantics (parseDate : Val → Option Val)
    (storeErrs : ℕ → Option String) (mapping : List (String × String))
    (tbl : Table) (cols : List String) (rows : List (List Cell)) :
    (coerceAll parseDate (renameCols mapping cols) rows = none →
      upload_excel_data parseDate storeErrs mapping tbl cols rows =
        ⟨tbl, [], 0, 0, some "엑셀 업로드 오류"⟩)
    ∧ (∀ coerced,
      coerceAll parseDate (renameCols mapping cols) rows = some coerced →
      (upload_excel_data parseDate storeErrs mapping tbl cols rows).attempts =
        coerced.map (mkRecord (renameCols mapping cols))
      ∧ (upload_excel_data parseDate storeErrs mapping tbl cols rows).total = rows.length
      ∧ (upload_excel_data parseDate storeErrs mapping tbl cols rows).succeeded =
        (List.range rows.length).countP (fun i => (storeErrs i).isNone)
      ∧ (upload_excel_data parseDate storeErrs mapping tbl cols rows).fileError = none) := by
  constructor
  · intro h
    simp [upload_excel_data, h]
  · intro coerced h
    have hlen : coerced.length = rows.length :=
      coerceAll_length _ _ rows coerced h
    refine ⟨by simp [upload_excel_data, h], by simp [upload_excel_data, h, hlen], ?_,
      by simp [upload_excel_data, h]⟩
    have hsucc : (upload_excel_data parseDate storeErrs mapping tbl cols rows).succeeded =
        (uploadInserts storeErrs tbl 0 (coerced.map (mkRecord (renameCols mapping cols)))).2 := by
      simp [upload_excel_data, h]
    rw [hsucc, uploadInserts_count]
    simp [hlen]

/-- C7 amended, witness: importing three parseable rows with the store
failing on the second insert attempts all three and returns `(2, 3)`. -/
theorem upload_excel_semantics_witness :
    (upload_excel_data cxParseDate (fun i => if i == 1 then some "dup" else none)
      [("입사일", "hire_date")] [] ["입사일"]
      [[some (.s "2020-01-01")], [some (.s "2020-01-02")], [some (.s "2020-01-03")]]).succeeded = 2
    ∧ (upload_excel_data cxParseDate (fun i => if i == 1 then some "dup" else none)
      [("입사일", "hire_date")] [] ["입사일"]
      [[some (.s "2020-01-01")], [some (.s "2020-01-02")], [some (.s "2020-01-03")]]).total = 3 := by
  have h := (upload_excel_semantics cxParseDate
    (fun i => if i == 1 then some "dup" else none)
    [("입사일", "hire_date")] [] ["입사일"]
    [[some (.s "2020-01-01")], [some (.s "2020-01-02")], [some (.s "2020-01-03")]]).2
    [[some (.s "2020-01-01")], [some (.s "2020-01-02")], [some (.s "2020-01-03")]]
    (by decide)
  exact ⟨by rw [h.2.2.1]; rfl, by rw [h.2.1]; rfl⟩

end HRA
